import Mathlib

/-!
Verification development for the mobile-mcp-server transport gateway.

The gateway has two variants:
* a Node/Express server (`src/index.ts`) exposing Streamable-HTTP
  endpoints (`POST/GET/DELETE /mcp`, session id in the `mcp-session-id`
  header, backed by a session table) and a legacy SSE singleton
  (`GET /sse` / `POST /sse`), behind a CORS middleware;
* a Cloudflare Workers variant (`src/worker.ts`) that emulates the
  handshake only (degraded environment).

Everything below is a shallow embedding of that source.  JavaScript
string truthiness matters in several places (`sessionId && ...`,
`!sessionId`, `origin && ...`): an absent value and the empty string
are both falsy, so the embedding carries `Option String` inputs and
tests emptiness explicitly, exactly where the source tests truthiness.
-/

/-- A JSON value, used to state the exact response bodies the gateway builds. -/
inductive Json where
  | jnull : Json
  | jbool : Bool → Json
  | jnum : Int → Json
  | jstr : String → Json
  | jarr : List Json → Json
  | jobj : List (String × Json) → Json

/-- Field presence test on a JSON object (used to characterise JSON-RPC envelopes). -/
def Json.hasField (j : Json) (k : String) : Bool :=
  match j with
  | Json.jobj fields => fields.any (fun p => p.1 == k)
  | _ => false

/-- A JSON-RPC envelope is an object carrying a top-level field named jsonrpc. -/
def isJsonRpcEnvelope (j : Json) : Bool :=
  j.hasField "jsonrpc"

/-- JavaScript truthiness of a `string | undefined` value:
`undefined` and the empty string are falsy. -/
def jsFalsy (o : Option String) : Bool :=
  match o with
  | none => true
  | some s => s == ""

/-- Lookup in the `streamableTransports` record (`streamableTransports[sid]`).
Transports are modelled as numeric handles. -/
def tableLookup (t : List (String × Nat)) (sid : String) : Option Nat :=
  (t.find? (fun p => p.1 == sid)).map (fun p => p.2)

/-- Deletion from the record (`delete streamableTransports[sid]`). -/
def tableRemove (t : List (String × Nat)) (sid : String) : List (String × Nat) :=
  t.filter (fun p => p.1 != sid)

/-- Insertion into the record (`streamableTransports[id] = transport`);
an existing binding for the key is overwritten. -/
def tableInsert (t : List (String × Nat)) (sid : String) (h : Nat) : List (String × Nat) :=
  tableRemove t sid ++ [(sid, h)]

/-- The mutable state of `startHttpServer`: the Streamable-HTTP session
table, the legacy SSE singleton slot, and a counter supplying fresh
transport handles (object allocation). -/
structure ServerState where
  streamableTransports : List (String × Nat)
  sseTransport : Option Nat
  nextHandle : Nat

/-- The state right after startup: empty table, no legacy transport. -/
def initialState : ServerState :=
  ServerState.mk [] none 0

/-- Body of the 400 response built by the `/mcp` handlers on an unknown
or missing session: a JSON-RPC error envelope with code -32000. -/
def invalidSessionBody : Json :=
  Json.jobj [("jsonrpc", Json.jstr "2.0"),
             ("error", Json.jobj [("code", Json.jnum (-32000)),
                                  ("message", Json.jstr "Invalid session")]),
             ("id", Json.jnull)]

/-- Outcome of an `/mcp` request: delegated to a live transport, a new
transport created (its session id not yet assigned), or rejected with a
status and JSON body. -/
inductive McpResponse where
  | forwarded : Nat → McpResponse
  | created : Nat → McpResponse
  | rejected : Nat → Json → McpResponse

/-- `sessionId && streamableTransports[sessionId]` as an Option: the
transport handle if the header is truthy and the id is in the table. -/
def sessionLookup (st : ServerState) (sessionId : Option String) : Option Nat :=
  match sessionId with
  | none => none
  | some s => if s = "" then none else tableLookup st.streamableTransports s

/-- Handler for `POST /mcp` (src/index.ts lines 47-91): reuse a live
session, or create a transport when the header is falsy and the body is
an initialize request, or reject with the -32000 body. -/
def handleMcpPost (st : ServerState) (sessionId : Option String) (isInit : Bool) :
    McpResponse × ServerState :=
  match sessionLookup st sessionId with
  | some h => (McpResponse.forwarded h, st)
  | none =>
    if jsFalsy sessionId && isInit then
      (McpResponse.created st.nextHandle,
       ServerState.mk st.streamableTransports st.sseTransport (st.nextHandle + 1))
    else
      (McpResponse.rejected 400 invalidSessionBody, st)

/-- The `onsessioninitialized` callback (src/index.ts lines 59-61): the
transport reports its freshly generated id and is registered in the table. -/
def onSessionInitialized (st : ServerState) (h : Nat) (id : String) : ServerState :=
  ServerState.mk (tableInsert st.streamableTransports id h) st.sseTransport st.nextHandle

/-- The `transport.onclose` handler (src/index.ts lines 64-68): if the
transport has a truthy session id, remove it from the table. -/
def onTransportClose (st : ServerState) (tsid : Option String) : ServerState :=
  match tsid with
  | none => st
  | some sid =>
    if sid = "" then st
    else ServerState.mk (tableRemove st.streamableTransports sid) st.sseTransport st.nextHandle

/-- Handler for `GET /mcp` (src/index.ts lines 93-116). -/
def handleMcpGet (st : ServerState) (sessionId : Option String) :
    McpResponse × ServerState :=
  match sessionLookup st sessionId with
  | some h => (McpResponse.forwarded h, st)
  | none => (McpResponse.rejected 400 invalidSessionBody, st)

/-- Handler for `DELETE /mcp` (src/index.ts lines 118-141); termination
itself is performed by the transport, which then fires `onTransportClose`. -/
def handleMcpDelete (st : ServerState) (sessionId : Option String) :
    McpResponse × ServerState :=
  match sessionLookup st sessionId with
  | some h => (McpResponse.forwarded h, st)
  | none => (McpResponse.rejected 400 invalidSessionBody, st)

/-- Observable actions of the legacy `GET /sse` handler, in order. -/
inductive SseAction where
  | closeTransport : Nat → SseAction
  | connectNew : Nat → SseAction

/-- Headers set by `GET /sse` before touching the singleton slot
(src/index.ts lines 163-165). -/
def sseStreamHeaders : List (String × String) :=
  [("Content-Type", "text/event-stream"),
   ("Cache-Control", "no-cache, no-transform"),
   ("Connection", "keep-alive")]

/-- Result of the legacy `GET /sse` handler: response headers, the
ordered actions taken on transports, and the new server state. -/
structure SseGetResult where
  headers : List (String × String)
  actions : List SseAction
  newState : ServerState

/-- Handler for `GET /sse` (src/index.ts lines 161-179): set the stream
headers, close any previous singleton transport, then install a fresh one. -/
def handleSseGet (st : ServerState) : SseGetResult :=
  SseGetResult.mk
    sseStreamHeaders
    ((match st.sseTransport with
      | some h => [SseAction.closeTransport h]
      | none => []) ++ [SseAction.connectNew st.nextHandle])
    (ServerState.mk st.streamableTransports (some st.nextHandle) (st.nextHandle + 1))

/-- Body of the 400 response built by `POST /sse` when no singleton
connection exists: a plain JSON object with one error string. -/
def noSseConnBody : Json :=
  Json.jobj [("error",
    Json.jstr "No SSE connection established. Please connect via GET /sse first.")]

/-- Outcome of a legacy `POST /sse` request. -/
inductive SsePostOutcome where
  | rejected : Nat → Json → SsePostOutcome
  | forwardedToSingleton : Nat → SsePostOutcome

/-- Handler for `POST /sse` (src/index.ts lines 146-159): reject with a
400 JSON body when no singleton exists, otherwise forward the message. -/
def handleSsePost (st : ServerState) : SsePostOutcome × ServerState :=
  match st.sseTransport with
  | none => (SsePostOutcome.rejected 400 noSseConnBody, st)
  | some h => (SsePostOutcome.forwardedToSingleton h, st)

/-- The origin-permission test of the CORS middleware
(src/index.ts line 21): wildcard in the list, or a truthy origin that
is a member of the list. -/
def originAllowed (allowed : List String) (origin : Option String) : Bool :=
  allowed.contains "*" ||
    (match origin with
     | none => false
     | some s => if s = "" then false else allowed.contains s)

/-- JavaScript `origin || "*"`. -/
def jsOrStar (origin : Option String) : String :=
  match origin with
  | none => "*"
  | some s => if s = "" then "*" else s

/-- The Access-Control-Allow-Origin header set by the middleware
(src/index.ts lines 21-23), if any. -/
def acaoHeader (allowed : List String) (origin : Option String) : Option String :=
  if originAllowed allowed origin then some (jsOrStar origin) else none

/-- Whether the middleware terminates the request or passes it on. -/
inductive CorsOutcome where
  | preflight : Nat → CorsOutcome
  | continueRouting : CorsOutcome

/-- Tail of the CORS middleware (src/index.ts lines 26-29): OPTIONS
requests are answered with 204 and no body, everything else proceeds. -/
def corsOutcome (method : String) : CorsOutcome :=
  if method = "OPTIONS" then CorsOutcome.preflight 204 else CorsOutcome.continueRouting

/-- Header lookup in a response header list. -/
def getHeader (hs : List (String × String)) (k : String) : Option String :=
  (hs.find? (fun p => p.1 == k)).map (fun p => p.2)

/-- One chunk of a server-sent-event body built by the Workers variant:
either the endpoint event naming the POST URL, or a message event whose
data is the serialisation of a JSON value. -/
inductive SseChunk where
  | endpointEvent : String → SseChunk
  | messageEvent : Json → SseChunk

/-- Body of a Workers-variant response. -/
inductive RespBody where
  | json : Json → RespBody
  | text : String → RespBody
  | empty : RespBody
  | sseStream : List SseChunk → Bool → RespBody
  | sseSingle : SseChunk → RespBody
  | jsonParseFailure : RespBody

/-- The parsed JSON body of a Workers `POST /sse` request
(`body.id` and `body.method` are the only fields the code reads). -/
structure WorkerBody where
  id : Option Json
  method : Option String

/-- A request as seen by the Workers `fetch` handler: HTTP method, URL
pathname, the sessionId query parameter (None when absent), and the
parsed JSON body (None when `request.json()` throws). -/
structure WorkerRequest where
  method : String
  pathname : String
  sessionIdParam : Option String
  body : Option WorkerBody

/-- A Workers-variant HTTP response. -/
structure WorkerResponse where
  status : Nat
  headers : List (String × String)
  body : RespBody

/-- JSON.stringify drops object members whose value is undefined, so a
missing request id yields no id member in the serialised reply. -/
def idFields (b : WorkerBody) : List (String × Json) :=
  match b.id with
  | some j => [("id", j)]
  | none => []

/-- The initialize result object built by the Workers variant
(src/worker.ts lines 78-91). -/
def workerInitializeResult : Json :=
  Json.jobj [("protocolVersion", Json.jstr "2024-11-05"),
             ("capabilities", Json.jobj [("tools", Json.jobj [])]),
             ("serverInfo", Json.jobj [("name", Json.jstr "mobile-mcp"),
                                       ("version", Json.jstr "0.0.1")])]

/-- The per-method dispatch of the Workers `POST /sse` branch
(src/worker.ts lines 77-109). -/
def workerResponseData (b : WorkerBody) : Json :=
  if b.method = some "initialize" then
    Json.jobj ([("jsonrpc", Json.jstr "2.0")] ++ idFields b ++
               [("result", workerInitializeResult)])
  else if b.method = some "tools/list" then
    Json.jobj ([("jsonrpc", Json.jstr "2.0")] ++ idFields b ++
               [("result", Json.jobj [("tools", Json.jarr [])])])
  else
    Json.jobj ([("jsonrpc", Json.jstr "2.0")] ++ idFields b ++
               [("error", Json.jobj [("code", Json.jnum (-32601)),
                 ("message", Json.jstr
                   "MCP server requires Node.js environment for mobile device operations.")])])

/-- The notification emitted as the second event of the Workers SSE
stream (src/worker.ts lines 35-39). -/
def workerInitializedNotification : Json :=
  Json.jobj [("jsonrpc", Json.jstr "2.0"),
             ("method", Json.jstr "notifications/initialized"),
             ("params", Json.jobj [])]

/-- The 400 response of the Workers variant when the sessionId query
parameter is absent or empty (src/worker.ts lines 64-69). -/
def workerMissingSessionResponse : WorkerResponse :=
  WorkerResponse.mk 400 [("Content-Type", "application/json")]
    (RespBody.json (Json.jobj [("error", Json.jstr "Missing sessionId")]))

/-- The Workers `fetch` handler (src/worker.ts).  `freshId` stands for
the `crypto.randomUUID()` value generated on a GET /sse request.  The
branches are checked in source order: /health first, then GET /sse,
then POST /sse, then the OPTIONS preflight, then the plain fallback. -/
def workerFetch (req : WorkerRequest) (freshId : String) : WorkerResponse :=
  if req.pathname = "/health" then
    WorkerResponse.mk 200 [("Content-Type", "application/json")]
      (RespBody.json (Json.jobj [("status", Json.jstr "ok")]))
  else if req.pathname = "/sse" ∧ req.method = "GET" then
    WorkerResponse.mk 200
      [("Content-Type", "text/event-stream"),
       ("Cache-Control", "no-cache, no-transform"),
       ("Connection", "keep-alive"),
       ("Access-Control-Allow-Origin", "*")]
      (RespBody.sseStream
        [SseChunk.endpointEvent ("/sse?sessionId=" ++ freshId),
         SseChunk.messageEvent workerInitializedNotification]
        true)
  else if req.pathname = "/sse" ∧ req.method = "POST" then
    match req.sessionIdParam with
    | none => workerMissingSessionResponse
    | some s =>
      if s = "" then workerMissingSessionResponse
      else
        match req.body with
        | none =>
          WorkerResponse.mk 400 [("Content-Type", "application/json")]
            RespBody.jsonParseFailure
        | some b =>
          WorkerResponse.mk 200
            [("Content-Type", "text/event-stream"),
             ("Cache-Control", "no-cache"),
             ("Access-Control-Allow-Origin", "*")]
            (RespBody.sseSingle (SseChunk.messageEvent (workerResponseData b)))
  else if req.method = "OPTIONS" then
    WorkerResponse.mk 204
      [("Access-Control-Allow-Origin", "*"),
       ("Access-Control-Allow-Methods", "GET, POST, OPTIONS"),
       ("Access-Control-Allow-Headers", "Content-Type")]
      RespBody.empty
  else
    WorkerResponse.mk 200 [("Content-Type", "text/plain")]
      (RespBody.text "mobile-mcp server")

theorem tableLookup_remove (t : List (String × Nat)) (sid : String) :
    tableLookup (tableRemove t sid) sid = none := by
  induction t with
  | nil => rfl
  | cons p t ih =>
    by_cases h : p.1 = sid
    · simp only [tableRemove, List.filter_cons] at *
      simp [h, ih]
    · have hb : (p.1 != sid) = true := by simp [h]
      have hq : (p.1 == sid) = false := by simp [h]
      simp only [tableRemove, List.filter_cons, hb, if_pos] at *
      simp only [tableLookup, List.find?, hq] at *
      exact ih

theorem tableLookup_append_right (l : List (String × Nat)) (sid : String) (h : Nat)
    (hl : tableLookup l sid = none) :
    tableLookup (l ++ [(sid, h)]) sid = some h := by
  induction l with
  | nil => simp [tableLookup, List.find?]
  | cons q rest ih =>
    by_cases hq : q.1 = sid
    · exfalso
      simp [tableLookup, List.find?, hq] at hl
    · have hb : (q.1 == sid) = false := by simp [hq]
      simp only [tableLookup, List.cons_append, List.find?, hb] at *
      exact ih hl

theorem tableLookup_insert_self (t : List (String × Nat)) (sid : String) (h : Nat) :
    tableLookup (tableInsert t sid h) sid = some h :=
  tableLookup_append_right (tableRemove t sid) sid h (tableLookup_remove t sid)

theorem mcpHandlers_reject_of_unknown (st : ServerState) (sid : String)
    (hne : sid ≠ "") (hunk : tableLookup st.streamableTransports sid = none) :
    (∀ isInit, handleMcpPost st (some sid) isInit =
        (McpResponse.rejected 400 invalidSessionBody, st)) ∧
    handleMcpGet st (some sid) = (McpResponse.rejected 400 invalidSessionBody, st) ∧
    handleMcpDelete st (some sid) = (McpResponse.rejected 400 invalidSessionBody, st) := by
  have hl : sessionLookup st (some sid) = none := by
    simp [sessionLookup, hne, hunk]
  have hbe : (sid == "") = false := by simp [hne]
  refine ⟨fun isInit => ?_, ?_, ?_⟩
  · simp [handleMcpPost, hl, jsFalsy, hbe]
  · simp [handleMcpGet, hl]
  · simp [handleMcpDelete, hl]

/-- Claim C1: on POST /mcp, a request with no session header and an
initialize body creates a fresh transport whose identifier is registered
in the table only when the `onsessioninitialized` callback fires; a
header matching a table entry is forwarded to that session with no table
change; a non-empty unknown header, or an absent header on a
non-initialize body, is rejected with the -32000 invalid-session body
and no state change. -/
theorem c1_streamable_post_lifecycle (st : ServerState) :
    (handleMcpPost st none true).1 = McpResponse.created st.nextHandle ∧
    ((handleMcpPost st none true).2).streamableTransports = st.streamableTransports ∧
    (∀ fid : String, fid ≠ "" →
      sessionLookup (onSessionInitialized (handleMcpPost st none true).2 st.nextHandle fid)
        (some fid) = some st.nextHandle) ∧
    (∀ s h isInit, sessionLookup st (some s) = some h →
      handleMcpPost st (some s) isInit = (McpResponse.forwarded h, st)) ∧
    (∀ s isInit, s ≠ "" → tableLookup st.streamableTransports s = none →
      handleMcpPost st (some s) isInit = (McpResponse.rejected 400 invalidSessionBody, st)) ∧
    handleMcpPost st none false = (McpResponse.rejected 400 invalidSessionBody, st) := by
  refine ⟨rfl, rfl, fun fid hfid => ?_, fun s h isInit hl => ?_, fun s isInit hne hunk => ?_, rfl⟩
  · have e : (handleMcpPost st none true).2 =
        ServerState.mk st.streamableTransports st.sseTransport (st.nextHandle + 1) := rfl
    rw [e]
    simp [sessionLookup, onSessionInitialized, hfid, tableLookup_insert_self]
  · simp [handleMcpPost, hl]
  · exact (mcpHandlers_reject_of_unknown st s hne hunk).1 isInit

theorem c1_witness :
    (handleMcpPost initialState none true).1 = McpResponse.created 0 ∧
    sessionLookup (onSessionInitialized (handleMcpPost initialState none true).2 0
        "3b241101-e2bb-4255-8caf-4136c566a962")
      (some "3b241101-e2bb-4255-8caf-4136c566a962") = some 0 ∧
    handleMcpPost initialState none false =
      (McpResponse.rejected 400 invalidSessionBody, initialState) := by
  have h := c1_streamable_post_lifecycle initialState
  exact ⟨h.1, h.2.2.1 _ (by decide), h.2.2.2.2.2⟩

/-- Claim C2: a non-empty session id absent from the table is rejected
with the same -32000 invalid-session body on POST, GET and DELETE /mcp
with no state change, and the error is one constant, so a never-issued
id and a since-closed id receive identical responses. -/
theorem c2_unknown_id_rejected (st : ServerState) (sid : String)
    (hne : sid ≠ "") (hunk : tableLookup st.streamableTransports sid = none) :
    (∀ isInit, handleMcpPost st (some sid) isInit =
        (McpResponse.rejected 400 invalidSessionBody, st)) ∧
    handleMcpGet st (some sid) = (McpResponse.rejected 400 invalidSessionBody, st) ∧
    handleMcpDelete st (some sid) = (McpResponse.rejected 400 invalidSessionBody, st) ∧
    (∀ st2 sid2, sid2 ≠ "" → tableLookup st2.streamableTransports sid2 = none →
      (handleMcpGet st (some sid)).1 = (handleMcpGet st2 (some sid2)).1) := by
  have h := mcpHandlers_reject_of_unknown st sid hne hunk
  refine ⟨h.1, h.2.1, h.2.2, fun st2 sid2 hne2 hunk2 => ?_⟩
  have h2 := mcpHandlers_reject_of_unknown st2 sid2 hne2 hunk2
  rw [h.2.1, h2.2.1]

theorem c2_witness :
    handleMcpGet initialState (some "never-issued-id") =
      (McpResponse.rejected 400 invalidSessionBody, initialState) ∧
    handleMcpPost initialState (some "never-issued-id") true =
      (McpResponse.rejected 400 invalidSessionBody, initialState) := by
  have h := c2_unknown_id_rejected initialState "never-issued-id" (by decide) (by decide)
  exact ⟨h.2.1, h.1 true⟩

/-- Claim C3: after the close handler removes a session id from the
table, that id resolves to nothing, and every subsequent POST, GET or
DELETE /mcp bearing it is rejected with the invalid-session body and
leaves the state unchanged (so a second DELETE also gets the error and
the id is never resurrected). -/
theorem c3_closure_terminal (st : ServerState) (sid : String) (hne : sid ≠ "") :
    sessionLookup (onTransportClose st (some sid)) (some sid) = none ∧
    (∀ isInit, handleMcpPost (onTransportClose st (some sid)) (some sid) isInit =
        (McpResponse.rejected 400 invalidSessionBody, onTransportClose st (some sid))) ∧
    handleMcpGet (onTransportClose st (some sid)) (some sid) =
      (McpResponse.rejected 400 invalidSessionBody, onTransportClose st (some sid)) ∧
    handleMcpDelete (onTransportClose st (some sid)) (some sid) =
      (McpResponse.rejected 400 invalidSessionBody, onTransportClose st (some sid)) := by
  have hrem : tableLookup (onTransportClose st (some sid)).streamableTransports sid = none := by
    simp [onTransportClose, hne, tableLookup_remove]
  have h := mcpHandlers_reject_of_unknown (onTransportClose st (some sid)) sid hne hrem
  exact ⟨by simp [sessionLookup, hne, hrem], h.1, h.2.1, h.2.2⟩

theorem c3_witness :
    sessionLookup (onTransportClose (onSessionInitialized initialState 0 "s-1") (some "s-1"))
      (some "s-1") = none ∧
    handleMcpDelete (onTransportClose (onSessionInitialized initialState 0 "s-1") (some "s-1"))
      (some "s-1") =
      (McpResponse.rejected 400 invalidSessionBody,
       onTransportClose (onSessionInitialized initialState 0 "s-1") (some "s-1")) := by
  have h := c3_closure_terminal (onSessionInitialized initialState 0 "s-1") "s-1" (by decide)
  exact ⟨h.1, h.2.2.2⟩

/-- Claim C4: GET /sse installs a fresh transport as the singleton; when
a previous singleton exists it is closed first, the close action
preceding the connect action; afterwards the slot holds exactly the new
transport. -/
theorem c4_sse_singleton (st : ServerState) :
    (handleSseGet st).newState.sseTransport = some st.nextHandle ∧
    (∀ h, st.sseTransport = some h →
      (handleSseGet st).actions =
        [SseAction.closeTransport h, SseAction.connectNew st.nextHandle]) ∧
    (st.sseTransport = none →
      (handleSseGet st).actions = [SseAction.connectNew st.nextHandle]) := by
  refine ⟨rfl, fun h hh => ?_, fun hh => ?_⟩ <;> simp [handleSseGet, hh]

theorem c4_witness :
    (handleSseGet (ServerState.mk [] (some 5) 6)).newState.sseTransport = some 6 ∧
    (handleSseGet (ServerState.mk [] (some 5) 6)).actions =
      [SseAction.closeTransport 5, SseAction.connectNew 6] := by
  have h := c4_sse_singleton (ServerState.mk [] (some 5) 6)
  exact ⟨h.1, h.2.1 5 rfl⟩

/-- Claim C6: with a concrete allow-list (no wildcard entry), a present
non-empty origin that is in the list is echoed back verbatim in
Access-Control-Allow-Origin; an absent origin or one not in the list
yields no such header; non-OPTIONS requests always proceed to routing,
so no explicit error arises from the origin check. -/
theorem c6_origin_guard (allowed : List String) (hw : allowed.contains "*" = false) :
    (∀ o, o ≠ "" → allowed.contains o = true → acaoHeader allowed (some o) = some o) ∧
    acaoHeader allowed none = none ∧
    (∀ o, allowed.contains o = false → acaoHeader allowed (some o) = none) ∧
    (∀ m, m ≠ "OPTIONS" → corsOutcome m = CorsOutcome.continueRouting) := by
  have hw2 : "*" ∉ allowed := by simpa using hw
  refine ⟨fun o hne hmem => ?_, ?_, fun o hmem => ?_, fun m hm => ?_⟩
  · have hmem2 : o ∈ allowed := by simpa using hmem
    simp [acaoHeader, originAllowed, jsOrStar, hw2, hne, hmem2]
  · simp [acaoHeader, originAllowed, hw2]
  · have hmem2 : o ∉ allowed := by simpa using hmem
    simp [acaoHeader, originAllowed, hw2, hmem2]
  · simp [corsOutcome, hm]

theorem c6_witness :
    acaoHeader ["https://a.example"] (some "https://a.example") = some "https://a.example" ∧
    acaoHeader ["https://a.example"] (some "https://b.example") = none ∧
    acaoHeader ["https://a.example"] none = none ∧
    corsOutcome "GET" = CorsOutcome.continueRouting := by
  have h := c6_origin_guard ["https://a.example"] (by decide)
  exact ⟨h.1 _ (by decide) (by decide), h.2.2.1 _ (by decide), h.2.1, h.2.2.2 _ (by decide)⟩

/-- Claim C8 (amended): POST /sse with no singleton present is rejected
with HTTP 400 (not a 5xx) carrying a plain JSON error-message body that
is not a JSON-RPC error envelope; with the singleton present the message
is forwarded to it; in both cases the state is unchanged. -/
theorem c8_sse_post_requires_singleton (st : ServerState) :
    (st.sseTransport = none →
      handleSsePost st = (SsePostOutcome.rejected 400 noSseConnBody, st) ∧
      isJsonRpcEnvelope noSseConnBody = false ∧ (400 : Nat) < 500) ∧
    (∀ h, st.sseTransport = some h →
      handleSsePost st = (SsePostOutcome.forwardedToSingleton h, st)) := by
  refine ⟨fun hh => ⟨?_, by decide, by norm_num⟩, fun h hh => ?_⟩ <;>
    simp [handleSsePost, hh]

theorem c8_witness :
    handleSsePost (ServerState.mk [] none 0) =
      (SsePostOutcome.rejected 400 noSseConnBody, ServerState.mk [] none 0) ∧
    handleSsePost (ServerState.mk [] (some 3) 1) =
      (SsePostOutcome.forwardedToSingleton 3, ServerState.mk [] (some 3) 1) := by
  have h1 := c8_sse_post_requires_singleton (ServerState.mk [] none 0)
  have h2 := c8_sse_post_requires_singleton (ServerState.mk [] (some 3) 1)
  exact ⟨(h1.1 rfl).1, h2.2 3 rfl⟩

/-- Claim C8 counterexample: the rejection body built by POST /sse when
no singleton exists has no top-level jsonrpc member, so it is not a
JSON-RPC error object as the claim states. -/
theorem c8_counterexample :
    handleSsePost initialState = (SsePostOutcome.rejected 400 noSseConnBody, initialState) ∧
    isJsonRpcEnvelope noSseConnBody = false ∧
    Json.hasField noSseConnBody "error" = true := by
  exact ⟨rfl, by decide, by decide⟩

theorem workerFetch_post_eval (s : String) (hs : s ≠ "") (b : WorkerBody) (fid : String) :
    workerFetch (WorkerRequest.mk "POST" "/sse" (some s) (some b)) fid =
      WorkerResponse.mk 200
        [("Content-Type", "text/event-stream"),
         ("Cache-Control", "no-cache"),
         ("Access-Control-Allow-Origin", "*")]
        (RespBody.sseSingle (SseChunk.messageEvent (workerResponseData b))) := by
  simp [workerFetch, hs]

theorem workerFetch_post_parsefail_eval (s : String) (hs : s ≠ "") (fid : String) :
    workerFetch (WorkerRequest.mk "POST" "/sse" (some s) none) fid =
      WorkerResponse.mk 400 [("Content-Type", "application/json")]
        RespBody.jsonParseFailure := by
  simp [workerFetch, hs]

theorem workerFetch_get_eval (sp : Option String) (ob : Option WorkerBody) (fid : String) :
    workerFetch (WorkerRequest.mk "GET" "/sse" sp ob) fid =
      WorkerResponse.mk 200
        [("Content-Type", "text/event-stream"),
         ("Cache-Control", "no-cache, no-transform"),
         ("Connection", "keep-alive"),
         ("Access-Control-Allow-Origin", "*")]
        (RespBody.sseStream
          [SseChunk.endpointEvent ("/sse?sessionId=" ++ fid),
           SseChunk.messageEvent workerInitializedNotification]
          true) := by
  simp [workerFetch]

/-- Claim C5: in the Workers variant, POST /sse with a non-empty
sessionId parameter answers initialize with a synchronous result
carrying protocolVersion, capabilities and serverInfo, answers
tools/list with an empty tools array, answers every other method with a
-32601 error, and GET /sse emits exactly the endpoint event and the
initialized notification and then closes the stream. -/
theorem c5_degraded_dispatch (s : String) (hs : s ≠ "") (b : WorkerBody) (fid : String) :
    (b.method = some "initialize" →
      workerFetch (WorkerRequest.mk "POST" "/sse" (some s) (some b)) fid =
        WorkerResponse.mk 200
          [("Content-Type", "text/event-stream"),
           ("Cache-Control", "no-cache"),
           ("Access-Control-Allow-Origin", "*")]
          (RespBody.sseSingle (SseChunk.messageEvent
            (Json.jobj ([("jsonrpc", Json.jstr "2.0")] ++ idFields b ++
              [("result", workerInitializeResult)]))))) ∧
    (b.method = some "tools/list" →
      workerFetch (WorkerRequest.mk "POST" "/sse" (some s) (some b)) fid =
        WorkerResponse.mk 200
          [("Content-Type", "text/event-stream"),
           ("Cache-Control", "no-cache"),
           ("Access-Control-Allow-Origin", "*")]
          (RespBody.sseSingle (SseChunk.messageEvent
            (Json.jobj ([("jsonrpc", Json.jstr "2.0")] ++ idFields b ++
              [("result", Json.jobj [("tools", Json.jarr [])])]))))) ∧
    (b.method ≠ some "initialize" → b.method ≠ some "tools/list" →
      workerFetch (WorkerRequest.mk "POST" "/sse" (some s) (some b)) fid =
        WorkerResponse.mk 200
          [("Content-Type", "text/event-stream"),
           ("Cache-Control", "no-cache"),
           ("Access-Control-Allow-Origin", "*")]
          (RespBody.sseSingle (SseChunk.messageEvent
            (Json.jobj ([("jsonrpc", Json.jstr "2.0")] ++ idFields b ++
              [("error", Json.jobj [("code", Json.jnum (-32601)),
                ("message", Json.jstr
                  "MCP server requires Node.js environment for mobile device operations.")])]))))) ∧
    (∀ sp ob, (workerFetch (WorkerRequest.mk "GET" "/sse" sp ob) fid).body =
      RespBody.sseStream
        [SseChunk.endpointEvent ("/sse?sessionId=" ++ fid),
         SseChunk.messageEvent workerInitializedNotification]
        true) := by
  refine ⟨fun hm => ?_, fun hm => ?_, fun hm1 hm2 => ?_, fun sp ob => ?_⟩
  · rw [workerFetch_post_eval s hs b fid]
    simp [workerResponseData, hm]
  · rw [workerFetch_post_eval s hs b fid]
    simp [workerResponseData, hm]
  · rw [workerFetch_post_eval s hs b fid]
    simp [workerResponseData, hm1, hm2]
  · rw [workerFetch_get_eval sp ob fid]

theorem c5_witness :
    workerFetch (WorkerRequest.mk "POST" "/sse" (some "sess-1")
        (some (WorkerBody.mk (some (Json.jnum 1)) (some "initialize")))) "f" =
      WorkerResponse.mk 200
        [("Content-Type", "text/event-stream"),
         ("Cache-Control", "no-cache"),
         ("Access-Control-Allow-Origin", "*")]
        (RespBody.sseSingle (SseChunk.messageEvent
          (Json.jobj [("jsonrpc", Json.jstr "2.0"), ("id", Json.jnum 1),
                      ("result", workerInitializeResult)]))) ∧
    (workerFetch (WorkerRequest.mk "GET" "/sse" none none) "f").body =
      RespBody.sseStream
        [SseChunk.endpointEvent ("/sse?sessionId=" ++ "f"),
         SseChunk.messageEvent workerInitializedNotification]
        true := by
  have h := c5_degraded_dispatch "sess-1" (by decide)
    (WorkerBody.mk (some (Json.jnum 1)) (some "initialize")) "f"
  exact ⟨h.1 rfl, h.2.2.2 none none⟩

/-- Claim C7 (amended): in the Node variant the CORS middleware answers
every OPTIONS request with 204 and no body; in the Workers variant the
same holds for every path except /health, whose branch is checked first
and returns the 200 health body even for OPTIONS. -/
theorem c7_options_preflight (req : WorkerRequest) (fid : String)
    (hm : req.method = "OPTIONS") (hp : req.pathname ≠ "/health") :
    workerFetch req fid =
      WorkerResponse.mk 204
        [("Access-Control-Allow-Origin", "*"),
         ("Access-Control-Allow-Methods", "GET, POST, OPTIONS"),
         ("Access-Control-Allow-Headers", "Content-Type")]
        RespBody.empty ∧
    corsOutcome "OPTIONS" = CorsOutcome.preflight 204 := by
  constructor
  · unfold workerFetch
    rw [if_neg hp,
        if_neg (fun hc => by rw [hm] at hc; exact absurd hc.2 (by decide)),
        if_neg (fun hc => by rw [hm] at hc; exact absurd hc.2 (by decide)),
        if_pos hm]
  · rfl

theorem c7_witness :
    workerFetch (WorkerRequest.mk "OPTIONS" "/mcp" none none) "u" =
      WorkerResponse.mk 204
        [("Access-Control-Allow-Origin", "*"),
         ("Access-Control-Allow-Methods", "GET, POST, OPTIONS"),
         ("Access-Control-Allow-Headers", "Content-Type")]
        RespBody.empty := by
  exact (c7_options_preflight (WorkerRequest.mk "OPTIONS" "/mcp" none none) "u"
    rfl (by decide)).1

/-- Claim C7 counterexample: in the Workers variant an OPTIONS request
to /health hits the health branch first and receives status 200 with the
health JSON body, not 204 with no body. -/
theorem c7_counterexample :
    workerFetch (WorkerRequest.mk "OPTIONS" "/health" none none) "u" =
      WorkerResponse.mk 200 [("Content-Type", "application/json")]
        (RespBody.json (Json.jobj [("status", Json.jstr "ok")])) ∧
    (workerFetch (WorkerRequest.mk "OPTIONS" "/health" none none) "u").status ≠ 204 := by
  refine ⟨rfl, ?_⟩
  intro hc
  simp [workerFetch] at hc

/-- Claim C9 (amended): the legacy GET /sse stream carries Content-Type
text/event-stream, Cache-Control no-cache, no-transform and Connection
keep-alive in both variants; the Workers POST /sse SSE reply carries
Content-Type text/event-stream but only Cache-Control no-cache and no
Connection header. -/
theorem c9_streaming_headers (st : ServerState) (sp : Option String) (ob : Option WorkerBody)
    (fid s : String) (b : WorkerBody) (hs : s ≠ "") :
    (handleSseGet st).headers = sseStreamHeaders ∧
    getHeader (workerFetch (WorkerRequest.mk "GET" "/sse" sp ob) fid).headers
      "Content-Type" = some "text/event-stream" ∧
    getHeader (workerFetch (WorkerRequest.mk "GET" "/sse" sp ob) fid).headers
      "Cache-Control" = some "no-cache, no-transform" ∧
    getHeader (workerFetch (WorkerRequest.mk "GET" "/sse" sp ob) fid).headers
      "Connection" = some "keep-alive" ∧
    getHeader (workerFetch (WorkerRequest.mk "POST" "/sse" (some s) (some b)) fid).headers
      "Content-Type" = some "text/event-stream" ∧
    getHeader (workerFetch (WorkerRequest.mk "POST" "/sse" (some s) (some b)) fid).headers
      "Cache-Control" = some "no-cache" ∧
    getHeader (workerFetch (WorkerRequest.mk "POST" "/sse" (some s) (some b)) fid).headers
      "Connection" = none := by
  rw [workerFetch_get_eval sp ob fid, workerFetch_post_eval s hs b fid]
  exact ⟨rfl, rfl, rfl, rfl, rfl, rfl, rfl⟩

theorem c9_witness :
    getHeader (workerFetch (WorkerRequest.mk "POST" "/sse" (some "w")
        (some (WorkerBody.mk none (some "ping")))) "u").headers "Cache-Control" =
      some "no-cache" ∧
    getHeader (workerFetch (WorkerRequest.mk "GET" "/sse" none none) "u").headers
      "Cache-Control" = some "no-cache, no-transform" := by
  have h := c9_streaming_headers initialState none none "u" "w"
    (WorkerBody.mk none (some "ping")) (by decide)
  exact ⟨h.2.2.2.2.2.1, h.2.2.1⟩

/-- Claim C9 counterexample: the Workers POST /sse SSE reply has no
Connection header and its Cache-Control is no-cache, not the required
no-cache, no-transform. -/
theorem c9_counterexample :
    getHeader (workerFetch (WorkerRequest.mk "POST" "/sse" (some "abc")
        (some (WorkerBody.mk none (some "initialize")))) "u").headers "Connection" = none ∧
    getHeader (workerFetch (WorkerRequest.mk "POST" "/sse" (some "abc")
        (some (WorkerBody.mk none (some "initialize")))) "u").headers "Cache-Control" =
      some "no-cache" ∧
    ("no-cache" : String) ≠ "no-cache, no-transform" := by
  exact ⟨rfl, rfl, by decide⟩

/-- Claim C10: the Workers POST /sse branch checks the sessionId query
parameter only for presence, so two requests with distinct non-empty
sessionId values and the same body receive identical responses. -/
theorem c10_sessionid_not_validated (s1 s2 : String) (h1 : s1 ≠ "") (h2 : s2 ≠ "")
    (ob : Option WorkerBody) (fid : String) :
    workerFetch (WorkerRequest.mk "POST" "/sse" (some s1) ob) fid =
      workerFetch (WorkerRequest.mk "POST" "/sse" (some s2) ob) fid := by
  cases ob with
  | none =>
    rw [workerFetch_post_parsefail_eval s1 h1 fid, workerFetch_post_parsefail_eval s2 h2 fid]
  | some b =>
    rw [workerFetch_post_eval s1 h1 b fid, workerFetch_post_eval s2 h2 b fid]

theorem c10_witness :
    workerFetch (WorkerRequest.mk "POST" "/sse" (some "issued-id")
        (some (WorkerBody.mk (some (Json.jnum 2)) (some "tools/list")))) "u" =
      workerFetch (WorkerRequest.mk "POST" "/sse" (some "never-issued")
        (some (WorkerBody.mk (some (Json.jnum 2)) (some "tools/list")))) "u" := by
  exact c10_sessionid_not_validated "issued-id" "never-issued" (by decide) (by decide)
    (some (WorkerBody.mk (some (Json.jnum 2)) (some "tools/list"))) "u"
